import Mathlib

/-!
# ScriptureSearcher — verification of the query language, evaluation engine,
# reference model and morphological decoder

Shallow embedding of the Python sources (`text_query.py`,
`query_string_parsing.py`, `reference.py`, `helpers.py`,
`generation/generate_lxx.py`) as executable Lean definitions, followed by
theorems settling the specification claims.

Conventions:
* Python exceptions are modelled with `Except String`; the error strings
  reproduce the messages raised by the source.
* Python `int` values that the data schema constrains to be non-negative
  (`word_index`) are `Nat`; values that the code compares against negative
  bounds (`paren_depth`, slice start indices) are computed in `Int` exactly
  as the source does.
* Recursive procedures whose termination is not structural carry a `fuel`
  argument; every claim quantifies over or instantiates the fuel, and
  running out of fuel is a distinguished error that never occurs at the
  fuel values used.
-/

/-! ## Python string primitives

The Python sources use `str.strip`, `str.split`, `str.startswith`, `in`,
`int(...)` and `re.match`.  They are embedded here directly over the
character list of a `String`, following Python's semantics. -/

/-- Python `p in s` for a character and `s.startswith(p)` share this prefix
test; `pyStartsWith s p` is Python `s.startswith(p)`. -/
def pyStartsWith (s p : String) : Bool := List.isPrefixOf p.data s.data

/-- Python `c in s` for a single character `c`. -/
def pyCharIn (c : Char) (s : String) : Bool := s.data.contains c

/-- Drops leading whitespace from a character list. -/
def dropLeadingSpaces : List Char → List Char
  | [] => []
  | c :: cs => if c.isWhitespace then dropLeadingSpaces cs else c :: cs

/-- Python `s.strip()`: remove leading and trailing whitespace. -/
def pyStrip (s : String) : String :=
  String.mk (List.reverse (dropLeadingSpaces (List.reverse (dropLeadingSpaces s.data))))

/-- Auxiliary for `pySplit`: accumulates the current word (reversed). -/
def pySplitAux : List Char → List Char → List String
  | [], acc => if acc.isEmpty then [] else [String.mk acc.reverse]
  | c :: cs, acc =>
    if c.isWhitespace then
      if acc.isEmpty then pySplitAux cs []
      else String.mk acc.reverse :: pySplitAux cs []
    else pySplitAux cs (c :: acc)

/-- Python `s.split()` (no argument): split on runs of whitespace, never
producing empty words. -/
def pySplit (s : String) : List String := pySplitAux s.data []

/-- Python `' '.join(words)`. -/
def pyJoinSpace : List String → String
  | [] => ""
  | [w] => w
  | w :: ws => w ++ " " ++ pyJoinSpace ws

/-- Python `int(s)` restricted to the non-empty all-digit strings the
tokenizer produces for parenthesis markers; `none` models the `ValueError`
that `int` raises on anything else. -/
def pyIntOfDigits? (s : String) : Option Nat :=
  if s.data.isEmpty || !(s.data.all Char.isDigit) then none
  else some (s.data.foldl (fun n c => n * 10 + (c.toNat - '0'.toNat)) 0)

/-! ## helpers.py -/

/-- Combining-mark test, modelling `unicodedata.category(c) == 'Mn'` for the
characters relevant to this corpus: the Unicode block U+0300–U+036F
(Combining Diacritical Marks) consists entirely of category-Mn characters,
and no other character appearing in this development is of category Mn. -/
def is_mn (c : Char) : Bool := 0x300 ≤ c.val ∧ c.val ≤ 0x36F

/-- Canonical (NFD) decomposition of one character, modelling
`unicodedata.normalize('NFD', ·)` character by character.  The table lists
the precomposed Greek tonos vowels used in this development (each decomposes
into the base vowel followed by U+0301 COMBINING ACUTE ACCENT); every other
character appearing here is its own NFD decomposition. -/
def nfd_decompose (c : Char) : List Char :=
  if c = 'ά' then ['α', '́']
  else if c = 'έ' then ['ε', '́']
  else if c = 'ή' then ['η', '́']
  else if c = 'ί' then ['ι', '́']
  else if c = 'ό' then ['ο', '́']
  else if c = 'ύ' then ['υ', '́']
  else if c = 'ώ' then ['ω', '́']
  else [c]

/-- `helpers.strip_accents`: NFD-decompose the string and discard every
combining mark (`''.join(c for c in unicodedata.normalize('NFD', s)
if unicodedata.category(c) != 'Mn')`). -/
def strip_accents (s : String) : String :=
  String.mk (((s.data.map nfd_decompose).flatten).filter (fun c => !(is_mn c)))

/-- Models Python `re.match(pattern, s)` restricted to patterns without
regular-expression metacharacters (the form every lexeme pattern in this
development takes): `re.match` anchors at the start of `s` only, so a
literal pattern matches exactly when it is a prefix of `s`. -/
def re_match (pattern s : String) : Bool := List.isPrefixOf pattern.data s.data

/-! ## reference.py — the `Reference` class -/

/-- `Reference.__init__`: chapter number, optional verse number, optional
verse letter. -/
structure Reference where
  chapter_number : Int
  verse_number : Option Int := none
  verse_letter : Option Char := none
deriving DecidableEq

/-- `Reference.is_chapter`: true if this instance is just a chapter. -/
def Reference.is_chapter (r : Reference) : Bool := r.verse_number.isNone

/-- `Reference.__lt__`, transcribed branch for branch.  The final branch
compares `ord()` values of the two letters. -/
def Reference.lt (self other : Reference) : Bool :=
  if self.chapter_number > other.chapter_number then
    false
  else if self.is_chapter || other.is_chapter then
    decide (self.chapter_number < other.chapter_number)
  else
    match self.verse_number, other.verse_number with
    | some sv, some ov =>
      if sv > ov then
        false
      else
        match self.verse_letter, other.verse_letter with
        | none, none => decide (sv ≠ ov)
        | none, some _ => false
        | some _, none => true
        | some sc, some oc => decide (sc.toNat < oc.toNat)
    | _, _ => false

/-! ## Claim C5 -/

/-- **C5** (code_bug evidence).  The code's actual behaviour at the inputs the
claim speaks about: `Reference(1,1) < Reference(1,1,'a')` evaluates to
`False` and the reverse comparison to `True`, so an absent verse letter
sorts *after* a present one — contradicting both the claim and the source's
own comment ("30 is earlier in the document than 30a").  Moreover
`Reference(1,5) < Reference(2,3)` evaluates to `False`, so a reference in an
earlier chapter is not always less than one in a later chapter. -/
theorem reference_lt_code_behavior :
    Reference.lt { chapter_number := 1, verse_number := some 1 }
      { chapter_number := 1, verse_number := some 1, verse_letter := some 'a' } = false
    ∧ Reference.lt { chapter_number := 1, verse_number := some 1, verse_letter := some 'a' }
      { chapter_number := 1, verse_number := some 1 } = true
    ∧ Reference.lt { chapter_number := 1, verse_number := some 5 }
      { chapter_number := 2, verse_number := some 3 } = false := by
  refine ⟨rfl, rfl, rfl⟩

/-! ## Data model — word records

A corpus element is a Python dict with keys `word_index`, `Book`, `Chapter`,
`Verse`, `word`, `lexeme` (a list of candidate lexical forms), `morph_code`
(a decoded attribute map) and `parent_set` (the ordered sequence the record
belongs to).  The attribute map's values are strings except for the
`extras` key, which holds a list of tags. -/

/-- A value of the decoded morphological attribute map: a string, or (for
the `extras` key) a list of tags. -/
inductive AttrVal where
  | s (v : String)
  | l (vs : List String)
deriving DecidableEq, BEq

/-- The decoded morphological attribute map, in insertion order. -/
abbrev MorphAttrs := List (String × AttrVal)

/-- A word record.  The cyclic Python back-pointer `parent_set` is embedded
as a nested list of records (each of which carries its own, possibly empty,
parent list); the schema invariant `word_index = position in parent_set` is
assumed explicitly by the theorems that need it. -/
inductive Word where
  | mk (word_index : Nat) (Book Chapter Verse : String) (word : String)
       (lexeme : List String) (morph_code : MorphAttrs)
       (parent_set : List Word)

def Word.word_index : Word → Nat
  | .mk i _ _ _ _ _ _ _ => i

def Word.Book : Word → String
  | .mk _ b _ _ _ _ _ _ => b

def Word.Chapter : Word → String
  | .mk _ _ c _ _ _ _ _ => c

def Word.Verse : Word → String
  | .mk _ _ _ v _ _ _ _ => v

def Word.word : Word → String
  | .mk _ _ _ _ w _ _ _ => w

def Word.lexeme : Word → List String
  | .mk _ _ _ _ _ l _ _ => l

def Word.morph_code : Word → MorphAttrs
  | .mk _ _ _ _ _ _ m _ => m

def Word.parent_set : Word → List Word
  | .mk _ _ _ _ _ _ _ p => p

mutual

/-- Structural equality of word records (Python `==` on the dicts). -/
def Word.beq : Word → Word → Bool
  | .mk i b c v w l m p, .mk i' b' c' v' w' l' m' p' =>
    i == i' && b == b' && c == c' && v == v' && w == w' && l == l' && m == m'
      && Word.beqList p p'

/-- Pointwise `Word.beq` on lists. -/
def Word.beqList : List Word → List Word → Bool
  | [], [] => true
  | x :: xs, y :: ys => Word.beq x y && Word.beqList xs ys
  | _, _ => false

end

instance : BEq Word := ⟨Word.beq⟩

/-- Python slicing `l[a:b]` for non-negative bounds. -/
def pySlice (a b : Nat) (l : List α) : List α := (l.take b).drop a

/-! ## text_query.py — the query AST and the evaluation engine -/

/-- `LexemeQuery.__init__(lexeme)`: the pattern plus seven optional
grammatical filters, all of which are `None` after construction.  (`case`
is a Lean keyword, hence the field name `case'`.) -/
structure LexemeQuery where
  lexeme : String
  case' : Option String := none
  number : Option String := none
  gender : Option String := none
  tense : Option String := none
  voice : Option String := none
  mood : Option String := none
  person : Option String := none
deriving DecidableEq

/-- The query AST: `AndQuery`, `OrQuery`, `LexemeQuery`,
`MorphologySearch(property, value)`, `AnteQuery(n)`, `PostQuery(n)`.
(`WindowQuery(a, p)` is, by its constructor, `OrQuery(AnteQuery(a),
PostQuery(p))` and is represented as that tree.) -/
inductive TextQuery where
  | andQ (lhs rhs : TextQuery)
  | orQ (lhs rhs : TextQuery)
  | lexemeQ (q : LexemeQuery)
  | morphQ (property value : String)
  | anteQ (number : Nat)
  | postQ (number : Nat)
deriving DecidableEq

/-- `LexemeQuery.winnow`: strip the accents off every candidate corpus
lexeme of the record and test the (unmodified) stored pattern against each
stripped candidate. -/
def LexemeQuery.winnow (q : LexemeQuery) (x : Word) : Bool :=
  let stripped := x.lexeme.map strip_accents
  stripped.any (fun y => re_match q.lexeme y)

/-- `LexemeQuery.post_winnow`: for each grammatical filter that is set,
keep only the rows whose attribute map contains the key with exactly the
required (string) value. -/
def LexemeQuery.post_winnow (q : LexemeQuery) (dataset : List Word) : List Word :=
  let dataset := match q.case' with
    | none => dataset
    | some vv => dataset.filter
        (fun row => List.lookup "case" row.morph_code == some (AttrVal.s vv))
  let dataset := match q.number with
    | none => dataset
    | some vv => dataset.filter
        (fun row => List.lookup "number" row.morph_code == some (AttrVal.s vv))
  let dataset := match q.gender with
    | none => dataset
    | some vv => dataset.filter
        (fun row => List.lookup "gender" row.morph_code == some (AttrVal.s vv))
  let dataset := match q.tense with
    | none => dataset
    | some vv => dataset.filter
        (fun row => List.lookup "tense" row.morph_code == some (AttrVal.s vv))
  let dataset := match q.voice with
    | none => dataset
    | some vv => dataset.filter
        (fun row => List.lookup "voice" row.morph_code == some (AttrVal.s vv))
  let dataset := match q.mood with
    | none => dataset
    | some vv => dataset.filter
        (fun row => List.lookup "mood" row.morph_code == some (AttrVal.s vv))
  let dataset := match q.person with
    | none => dataset
    | some vv => dataset.filter
        (fun row => List.lookup "person" row.morph_code == some (AttrVal.s vv))
  dataset

/-- `MorphologySearch.winnow`: the property key is present and mapped to
exactly the sought value. -/
def MorphologySearch.winnow (property value : String) (x : Word) : Bool :=
  List.lookup property x.morph_code == some (AttrVal.s value)

/-- `AnteQuery.search`: for each input record, append the slice of its
`parent_set` from `max(word_index - n, 0)` (computed, as in the source, by
clamping a possibly negative integer at zero) up to `word_index`;
`n = 0` short-circuits to the empty result. -/
def anteSearch (number : Nat) (dataset : List Word) : List Word :=
  if number = 0 then []
  else dataset.flatMap (fun word =>
    let i := word.word_index
    let start_index : Int := (i : Int) - (number : Int)
    let start_index : Int := if start_index < 0 then 0 else start_index
    pySlice start_index.toNat i word.parent_set)

/-- `PostQuery.search`: mirror of `AnteQuery.search`, clamping the end of
the slice at `len(parent_set) - 1`; `n = 0` yields the empty result. -/
def postSearch (number : Nat) (dataset : List Word) : List Word :=
  if number = 0 then []
  else dataset.flatMap (fun word =>
    let i := word.word_index
    let end_idx := i + number
    let end_idx := if word.parent_set.length ≤ end_idx then word.parent_set.length - 1 else end_idx
    pySlice (i + 1) (end_idx + 1) word.parent_set)

/-- `search` for every query variant:
* `AndQuery`: evaluate the left against the input, then the right against
  the left's result;
* `OrQuery`: evaluate both against the same input and concatenate
  (`lhs_result.extend(rhs_result)`), without deduplication;
* `LexemeQuery` / `MorphologySearch`: `WinnowSearch.search`, i.e. filter by
  `winnow` and then apply `post_winnow` (the identity for
  `MorphologySearch`);
* `AnteQuery` / `PostQuery`: positional window accumulation. -/
def TextQuery.search : TextQuery → List Word → List Word
  | .andQ lhs rhs, dataset => rhs.search (lhs.search dataset)
  | .orQ lhs rhs, dataset => lhs.search dataset ++ rhs.search dataset
  | .lexemeQ q, dataset => q.post_winnow (dataset.filter q.winnow)
  | .morphQ p v, dataset => dataset.filter (MorphologySearch.winnow p v)
  | .anteQ n, dataset => anteSearch n dataset
  | .postQ n, dataset => postSearch n dataset

/-! ## Claim C3 -/

/-- **C3**.  `AndQuery.search` evaluates the right operand against the left
result, never against the original corpus; consequently
`AndQuery(LexemeQuery(X), MorphologySearch(p, v))` returns a sub-collection
(order-preserving subset) of `LexemeQuery(X).search(corpus)` for every
corpus. -/
theorem and_search_narrows :
    (∀ (lhs rhs : TextQuery) (corpus : List Word),
      (TextQuery.andQ lhs rhs).search corpus = rhs.search (lhs.search corpus))
    ∧ (∀ (x property value : String) (corpus : List Word),
      List.Sublist
        ((TextQuery.andQ (TextQuery.lexemeQ { lexeme := x })
            (TextQuery.morphQ property value)).search corpus)
        ((TextQuery.lexemeQ { lexeme := x }).search corpus)) := by
  refine ⟨fun lhs rhs corpus => rfl, fun x property value corpus => ?_⟩
  exact List.filter_sublist _

/-! ## Claim C4 -/

/-- **C4**.  `OrQuery.search` concatenates the two independent results in
left-then-right order with no deduplication: occurrence counts add, and a
record occurring once in each operand's result occurs exactly twice in the
union. -/
theorem or_search_concat_no_dedup :
    (∀ (lhs rhs : TextQuery) (corpus : List Word),
      (TextQuery.orQ lhs rhs).search corpus = lhs.search corpus ++ rhs.search corpus)
    ∧ (∀ (lhs rhs : TextQuery) (corpus : List Word) (w : Word),
      List.count w ((TextQuery.orQ lhs rhs).search corpus)
        = List.count w (lhs.search corpus) + List.count w (rhs.search corpus))
    ∧ (∀ (lhs rhs : TextQuery) (corpus : List Word) (w : Word),
      List.count w (lhs.search corpus) = 1 → List.count w (rhs.search corpus) = 1 →
      List.count w ((TextQuery.orQ lhs rhs).search corpus) = 2) := by
  refine ⟨fun lhs rhs corpus => rfl,
    fun lhs rhs corpus w => List.count_append w _ _,
    fun lhs rhs corpus w h1 h2 => ?_⟩
  rw [show (TextQuery.orQ lhs rhs).search corpus
        = lhs.search corpus ++ rhs.search corpus from rfl,
      List.count_append, h1, h2]

/-- A record whose attribute map carries `case = genitive`, used to witness
the duplication property at a concrete input. -/
def genitive_record : Word :=
  Word.mk 0 "John" "1" "1" "λόγου" ["λόγος"] [("case", AttrVal.s "genitive")] []

/-- Witness for C4: at a concrete one-record corpus matched once by each of
two identical `MorphologySearch` operands, the record appears exactly twice
in the `OrQuery` result. -/
theorem or_search_concat_no_dedup_witness :
    List.count genitive_record
      ((TextQuery.orQ (TextQuery.morphQ "case" "genitive")
          (TextQuery.morphQ "case" "genitive")).search [genitive_record]) = 2 :=
  or_search_concat_no_dedup.2.2 _ _ [genitive_record] genitive_record
    (by decide) (by decide)

/-! ## Claim C2 -/

/-- A corpus record whose single candidate lexeme is the accented form
`λόγος`. -/
def logos_record : Word :=
  Word.mk 0 "John" "1" "1" "Λόγος" ["λόγος"] [] []

/-- **C2** (counterexample).  The accent-stripped form of the query pattern
`λόγος` equals the accent-stripped form of the record's corpus lexeme
`λόγος` (both are `λογος`), yet `LexemeQuery.winnow` rejects the record:
the stripping is applied to the corpus candidates only, never to the query
pattern, so an accented query pattern fails even though the stripped forms
agree. -/
theorem lexeme_accent_stripping_counterexample :
    strip_accents "λόγος" = "λογος"
    ∧ re_match (strip_accents "λόγος") (strip_accents "λόγος") = true
    ∧ LexemeQuery.winnow { lexeme := "λόγος" } logos_record = false :=
  ⟨rfl, rfl, rfl⟩

/-- **C2** (amended).  `LexemeQuery.winnow` applies the accent-stripping
transformation (NFD decomposition, combining marks discarded) to each
candidate corpus lexeme only, and tests the stored pattern verbatim against
the stripped candidates: whenever the raw pattern matches the
accent-stripped form of some candidate lexeme of the record, the record is
accepted.  (In particular an accent-free pattern matches corpus lexemes
regardless of their accents; an accented pattern is not itself stripped.) -/
theorem lexeme_accent_stripping_amended (q : LexemeQuery) (x : Word) (y : String)
    (hy : y ∈ x.lexeme) (hm : re_match q.lexeme (strip_accents y) = true) :
    q.winnow x = true := by
  unfold LexemeQuery.winnow
  simp only [List.any_eq_true]
  exact ⟨strip_accents y, List.mem_map_of_mem _ hy, hm⟩

/-- Witness for the amended C2: the accent-free pattern `λογος` matches the
record carrying the accented corpus lexeme `λόγος`. -/
theorem lexeme_accent_stripping_amended_witness :
    LexemeQuery.winnow { lexeme := "λογος" } logos_record = true :=
  lexeme_accent_stripping_amended { lexeme := "λογος" } logos_record "λόγος"
    (by decide) (by decide)

/-! ## Claim C8 -/

/-- Last word of a one-word book of Matthew, preceding Mark in the same
`parent_set`. -/
def matt_word : Word :=
  Word.mk 0 "Matthew" "28" "20" "ἀμήν" ["ἀμήν"] [] []

/-- First word of Mark, as it appears inside `parent_set` (its own parent
list is empty — the Python back-pointer is cyclic, the embedding truncates
it). -/
def mark_word0 : Word :=
  Word.mk 1 "Mark" "1" "1" "Ἀρχή" ["ἀρχή"] [] []

/-- First word of Mark carrying the two-book `parent_set`
`[matt_word, mark_word0]`, as `scripture_searcher.main_loop` builds it (the
`parent_set` is the whole corpus, spanning every book). -/
def mark_word : Word :=
  Word.mk 1 "Mark" "1" "1" "Ἀρχή" ["ἀρχή"] [] [matt_word, mark_word0]

/-- **C8** (counterexample).  `AnteQuery(1)` applied to the first word of
Mark returns the last word of Matthew: the slice of `parent_set` is taken
with no book check, so when `parent_set` spans several books (as the
application builds it) the result does include words from a different book
than the input record.  Only the clamp at index 0 is real — it prevents a
negative Python slice bound from wrapping to the end of the list. -/
theorem ante_search_book_crossing :
    TextQuery.search (TextQuery.anteQ 1) [mark_word] = [matt_word]
    ∧ matt_word.Book ≠ mark_word.Book := by
  exact ⟨rfl, by decide⟩

/-- **C8** (amended).  For `n = 0`, `AnteQuery(n).search` returns the empty
list regardless of input; for `n > 0` it returns, for each input record in
order, exactly the records at positions `max(0, word_index - n)` through
`word_index - 1` of that record's `parent_set` (the clamp at 0 prevents the
Python slice from wrapping), with no restriction on the books those
records belong to. -/
theorem ante_search_amended (n : Nat) (ds : List Word) (h : 0 < n) :
    TextQuery.search (TextQuery.anteQ 0) ds = []
    ∧ TextQuery.search (TextQuery.anteQ n) ds
        = ds.flatMap (fun w => (w.parent_set.take w.word_index).drop (w.word_index - n)) := by
  refine ⟨rfl, ?_⟩
  show anteSearch n ds = _
  unfold anteSearch
  rw [if_neg (by omega)]
  congr 1
  funext w
  unfold pySlice
  have he : (if ((w.word_index : Int) - (n : Int)) < 0 then 0
      else ((w.word_index : Int) - (n : Int))).toNat = w.word_index - n := by
    split <;> omega
  dsimp only
  rw [he]

/-- Witness for the amended C8 at the concrete two-book corpus. -/
theorem ante_search_amended_witness :
    TextQuery.search (TextQuery.anteQ 0) [mark_word] = []
    ∧ TextQuery.search (TextQuery.anteQ 1) [mark_word]
        = [mark_word].flatMap
            (fun w => (w.parent_set.take w.word_index).drop (w.word_index - 1)) :=
  ante_search_amended 1 [mark_word] (by decide)

/-! ## query_string_parsing.py — the tokenizer -/

/-- `TokenizerFSMState`. -/
inductive TokenizerFSMState where
  | PARSING_COMMAND
  | DEFAULT_STATE
  | PARSING_AND
  | PARSING_OR
deriving DecidableEq

/-- The body of `_tokenize_command_str`'s while-loop, one fuel unit per
iteration.  The state carried across iterations is the remaining input,
the FSM state, `paren_depth`, `command_str` and the accumulated `tokens`.
The iterations that leave `idx` unchanged (entering `PARSING_COMMAND`, or
leaving it at a structural character) recurse on the same character list;
the `and`/`or` promotion branches additionally skip one character, exactly
as the source's double `idx = idx + 1` does. -/
def tokenizeAux : Nat → List Char → TokenizerFSMState → Int → String → List String →
    Except String (List String)
  | 0, _, _, _, _, _ => .error "out of fuel"
  | fuel + 1, chars, state, paren_depth, command_str, tokens =>
    match chars with
    | [] =>
      if paren_depth ≠ 0 then .error "Invalid parentheses in string."
      else if command_str ≠ "" then .ok (tokens ++ [command_str])
      else .ok tokens
    | c :: rest =>
      match state with
      | .DEFAULT_STATE =>
        if c = '(' || c = '[' then
          tokenizeAux fuel rest .DEFAULT_STATE (paren_depth + 1) command_str
            (tokens ++ ["(" ++ toString paren_depth])
        else if c = ')' || c = ']' then
          if paren_depth - 1 < 0 then .error "Invalid parentheses in string."
          else
            tokenizeAux fuel rest .DEFAULT_STATE (paren_depth - 1) command_str
              (tokens ++ [")" ++ toString (paren_depth - 1)])
        else if c.isWhitespace then
          tokenizeAux fuel rest .DEFAULT_STATE paren_depth command_str tokens
        else
          tokenizeAux fuel (c :: rest) .PARSING_COMMAND paren_depth command_str tokens
      | .PARSING_COMMAND =>
        if pyCharIn c "()[]" then
          tokenizeAux fuel (c :: rest) .DEFAULT_STATE paren_depth ""
            (tokens ++ [pyStrip command_str])
        else
          let command_str := command_str.push c
          let stripped := pyStrip command_str
          let split := pySplit command_str
          if stripped = "and" then
            tokenizeAux fuel (rest.drop 1) .DEFAULT_STATE paren_depth "" (tokens ++ ["&"])
          else if stripped = "or" then
            tokenizeAux fuel (rest.drop 1) .DEFAULT_STATE paren_depth "" (tokens ++ ["|"])
          else
            match split.getLast? with
            | none => .error "IndexError: list index out of range"
            | some last =>
              if last = "and" then
                tokenizeAux fuel (rest.drop 1) .DEFAULT_STATE paren_depth ""
                  (tokens ++ [pyJoinSpace split.dropLast, "&"])
              else if last = "or" then
                tokenizeAux fuel (rest.drop 1) .DEFAULT_STATE paren_depth ""
                  (tokens ++ [pyJoinSpace split.dropLast, "|"])
              else
                tokenizeAux fuel rest .PARSING_COMMAND paren_depth command_str tokens
      | _ => .error "unreachable FSM state"

/-- `_tokenize_command_str`.  Two fuel units per input character suffice
(each character is consumed once, and at most one extra iteration per
character leaves the index unchanged). -/
def tokenizeCommandStr (command : String) : Except String (List String) :=
  tokenizeAux (2 * command.length + 2) command.data .DEFAULT_STATE 0 "" []

/-! ## Claim C6 -/

/-- **C6** (code_bug evidence).  The tokenizer splits a command word that
merely *begins* with `and`: `"android"` is tokenized as the operator `&`
followed by the mangled remainder `oid` (the source's extra
`idx = idx + 1` also drops the `r`), instead of the single command token
`"android"` the whole-word rule promises. -/
theorem tokenizer_splits_word_starting_with_and :
    tokenizeCommandStr "android" = .ok ["&", "oid"]
    ∧ tokenizeCommandStr "android" ≠ .ok ["android"] := by
  refine ⟨rfl, ?_⟩
  intro hcontra
  have : (["&", "oid"] : List String) = ["android"] := by
    have h1 : tokenizeCommandStr "android" = .ok ["&", "oid"] := rfl
    rw [h1] at hcontra
    exact Except.ok.inj hcontra
  simp at this

/-! ## query_string_parsing.py — the leaf command grammar -/

/-- `CMDToQueryFSMState`. -/
inductive CMDToQueryFSMState where
  | DEFAULT_STATE
  | PARSING_CASE
  | PARSING_NUMBER
  | PARSING_GENDER
  | PARSING_TENSE
  | PARSING_VOICE
  | PARSING_MOOD
  | PARSING_PERSON
deriving DecidableEq

/-- The seven optional fields accumulated by `_cmd_to_lexeme_search`'s
while-loop. -/
structure LexFields where
  case' : Option String := none
  number : Option String := none
  gender : Option String := none
  tense : Option String := none
  voice : Option String := none
  mood : Option String := none
  person : Option String := none

/-- The while-loop of `_cmd_to_lexeme_search`: one token per step, with the
FSM state and the accumulated fields threaded through.  Error messages are
the source's (including its copy-pasted `tense` in the duplicate-definition
messages for voice, mood and person). -/
def lexemeFSM : List String → CMDToQueryFSMState → LexFields →
    Except String LexFields
  | [], state, fields =>
    match state with
    | .DEFAULT_STATE => .ok fields
    | .PARSING_CASE => .error "Syntax: lacking argument to --case"
    | .PARSING_NUMBER => .error "Syntax: lacking argument to --number"
    | .PARSING_GENDER => .error "Syntax: lacking argument to --gender"
    | .PARSING_TENSE => .error "Syntax: lacking argument to --tense"
    | .PARSING_VOICE => .error "Syntax: lacking argument to --voice"
    | .PARSING_MOOD => .error "Syntax: lacking argument to --mood"
    | .PARSING_PERSON => .error "Syntax: lacking argument to --person"
  | token :: rest, state, fields =>
    match state with
    | .DEFAULT_STATE =>
      if token = "--case" then lexemeFSM rest .PARSING_CASE fields
      else if token = "--number" then lexemeFSM rest .PARSING_NUMBER fields
      else if token = "--gender" then lexemeFSM rest .PARSING_GENDER fields
      else if token = "--tense" then lexemeFSM rest .PARSING_TENSE fields
      else if token = "--voice" then lexemeFSM rest .PARSING_VOICE fields
      else if token = "--mood" then lexemeFSM rest .PARSING_MOOD fields
      else if token = "--person" then lexemeFSM rest .PARSING_PERSON fields
      else .error ("Syntax: invalid search token, \"" ++ token ++ "\"")
    | .PARSING_CASE =>
      if fields.case'.isSome then .error "Syntax: cannot define case twice"
      else if !(["nominative", "genitive", "dative", "accusative"].contains token) then
        .error ("Value: not a case, \"" ++ token ++ "\"")
      else lexemeFSM rest .DEFAULT_STATE { fields with case' := some token }
    | .PARSING_NUMBER =>
      if fields.number.isSome then .error "Syntax: cannot define number twice"
      else if !(["singular", "plural", "dual"].contains token) then
        .error ("Value: not a number, \"" ++ token ++ "\"")
      else lexemeFSM rest .DEFAULT_STATE { fields with number := some token }
    | .PARSING_GENDER =>
      if fields.gender.isSome then .error "Syntax: cannot define gender twice"
      else if !(["masculine", "feminine", "neuter"].contains token) then
        .error ("Value: not a gender, \"" ++ token ++ "\"")
      else lexemeFSM rest .DEFAULT_STATE { fields with gender := some token }
    | .PARSING_TENSE =>
      if fields.tense.isSome then .error "Syntax: cannot define tense twice"
      else if !(["present", "imperfect", "aorist", "perfect", "future",
          "pluperfect"].contains token) then
        .error ("Value: not a tense, \"" ++ token ++ "\"")
      else lexemeFSM rest .DEFAULT_STATE { fields with tense := some token }
    | .PARSING_VOICE =>
      if fields.voice.isSome then .error "Syntax: cannot define tense twice"
      else if !(["active", "middle", "passive"].contains token) then
        .error ("Value: not a voice, \"" ++ token ++ "\"")
      else lexemeFSM rest .DEFAULT_STATE { fields with voice := some token }
    | .PARSING_MOOD =>
      if fields.mood.isSome then .error "Syntax: cannot define tense twice"
      else if !(["indicative", "imperative", "participle", "infinitive",
          "subjunctive", "optative"].contains token) then
        .error ("Value: not a mood, \"" ++ token ++ "\"")
      else lexemeFSM rest .DEFAULT_STATE { fields with mood := some token }
    | .PARSING_PERSON =>
      if fields.person.isSome then .error "Syntax: cannot define tense twice"
      else if !(["first", "second", "third"].contains token) then
        .error ("Value: not a person, \"" ++ token ++ "\"")
      else lexemeFSM rest .DEFAULT_STATE { fields with person := some token }

/-- `_cmd_to_lexeme_search`: the first token is the lexeme pattern, the rest
feed the field FSM, and the final query is the constructed `LexemeQuery`
with the accumulated fields assigned. -/
def cmdToLexemeSearch (cmd_tokens : List String) : Except String LexemeQuery :=
  match cmd_tokens with
  | [] => .error
      "Syntax: no arguments given to search type \"lexeme\"; See arguments with \"-h search lexeme\""
  | lexeme :: rest =>
    match lexemeFSM rest .DEFAULT_STATE {} with
    | .error e => .error e
    | .ok fields =>
      .ok { lexeme := lexeme, case' := fields.case', number := fields.number,
            gender := fields.gender, tense := fields.tense, voice := fields.voice,
            mood := fields.mood, person := fields.person }

/-- `_cmd_to_query`: split the command on whitespace; the first word selects
the search type (only `lexeme` exists). -/
def cmdToQuery (cmd : String) : Except String TextQuery :=
  match pySplit cmd with
  | [] => .error "Invalid empty command given."
  | t :: rest =>
    if t = "lexeme" then
      match cmdToLexemeSearch rest with
      | .error e => .error e
      | .ok q => .ok (TextQuery.lexemeQ q)
    else .error ("Syntax: unknown command type, \"" ++ t ++ "\"")

/-! ## Claim C9 -/

/-- **C9** (counterexample).  Supplying `--case vocative` to a lexeme leaf
command is rejected with `Value: not a case, "vocative"`: the accepted set
is `{nominative, genitive, dative, accusative}` and does not contain
`vocative`, although the LXX morphological decoder does emit
`case = vocative` attributes. -/
theorem case_vocative_rejected :
    cmdToLexemeSearch ["λογος", "--case", "vocative"]
      = .error "Value: not a case, \"vocative\"" := rfl

/-- **C9** (amended).  The `--case` flag of a lexeme leaf command accepts
exactly the four values `{nominative, genitive, dative, accusative}`; any
other value raises `Value: not a case, "<value>"`, supplying `--case` twice
raises `Syntax: cannot define case twice`, and a trailing `--case` with no
following value raises `Syntax: lacking argument to --case`. -/
theorem case_flag_amended :
    (∀ (w v : String), v ∈ ["nominative", "genitive", "dative", "accusative"] →
      cmdToLexemeSearch [w, "--case", v] = .ok { lexeme := w, case' := some v })
    ∧ (∀ (w v : String),
      (["nominative", "genitive", "dative", "accusative"].contains v) = false →
      cmdToLexemeSearch [w, "--case", v] = .error ("Value: not a case, \"" ++ v ++ "\""))
    ∧ (∀ (w : String), cmdToLexemeSearch [w, "--case", "genitive", "--case", "dative"]
        = .error "Syntax: cannot define case twice")
    ∧ (∀ (w : String), cmdToLexemeSearch [w, "--case"]
        = .error "Syntax: lacking argument to --case") := by
  refine ⟨fun w v hv => ?_, fun w v hv => ?_, fun w => rfl, fun w => rfl⟩
  · simp only [List.mem_cons, List.not_mem_nil, or_false] at hv
    rcases hv with h | h | h | h <;> subst h <;> rfl
  · simp only [cmdToLexemeSearch, lexemeFSM, hv]
    rfl

/-- Witness for the amended C9 at concrete inputs: `genitive` is accepted,
`vocative` is refused. -/
theorem case_flag_amended_witness :
    cmdToLexemeSearch ["λογος", "--case", "genitive"]
      = .ok { lexeme := "λογος", case' := some "genitive" }
    ∧ cmdToLexemeSearch ["λογος", "--case", "ablative"]
      = .error "Value: not a case, \"ablative\"" :=
  ⟨case_flag_amended.1 "λογος" "genitive" (by decide),
   case_flag_amended.2.1 "λογος" "ablative" (by decide)⟩

/-! ## query_string_parsing.py — the parser

`_tokens_list_to_query` operates on a Python list whose elements are
strings, nested sub-lists (produced from parenthesis regions) or
already-formed query objects; `TokItem` is that union. -/

/-- An element of the parser's working list: a token string, a nested
sub-list, or an already-formed query. -/
inductive TokItem where
  | str (s : String)
  | sub (l : List TokItem)
  | query (q : TextQuery)

/-- `_is_cmd`: a token is a command unless it is `&` or `|`
(`token not in ['&', '|']`). -/
def isCmd (token : String) : Bool := !(token == "&" || token == "|")

/-- Python `'&' == x` for a working-list element `x` (equality of a string
with a non-string is `False`). -/
def TokItem.isStrEq (op : String) : TokItem → Bool
  | .str s => s == op
  | _ => false

/-- The inner scan of `_replace_parens_with_sublists`: find the first
element equal to the closing marker, returning the elements before it and
the elements after it; `none` models the scan running off the end. -/
def findClose (closing : String) : List TokItem → Option (List TokItem × List TokItem)
  | [] => none
  | t :: rest =>
    if t.isStrEq closing then some ([], rest)
    else
      match findClose closing rest with
      | none => none
      | some (inside, after) => some (t :: inside, after)

/-- `_replace_parens_with_sublists`: replace each parenthesis region
`"(<n>" … ")<n>"` by a nested sub-list, recursively.  An opening marker with
no matching closing marker is silently dropped and the scan continues, as in
the source (the tokenizer never produces such input).  The fuel bounds only
the nesting depth: unfolding one parenthesis region costs one unit. -/
def replaceParens : Nat → List TokItem → Except String (List TokItem)
  | _, [] => .ok []
  | fuel, t :: rest =>
    match t with
    | .str s =>
      if pyStartsWith s "(" then
        match pyIntOfDigits? (String.mk (s.data.drop 1)) with
        | none => .error "ValueError: invalid literal for int()"
        | some paren_num =>
          match findClose (")" ++ toString paren_num) rest with
          | none => replaceParens fuel rest
          | some (inside, after) =>
            if inside.isEmpty then .error "Syntax: cannot have empty parentheses."
            else
              match fuel with
              | 0 => .error "out of fuel"
              | fuel + 1 =>
                match replaceParens fuel inside with
                | .error e => .error e
                | .ok sub_query =>
                  match replaceParens fuel after with
                  | .error e => .error e
                  | .ok tail => .ok (TokItem.sub sub_query :: tail)
      else
        match replaceParens fuel rest with
        | .error e => .error e
        | .ok tail => .ok (t :: tail)
    | _ =>
      match replaceParens fuel rest with
      | .error e => .error e
      | .ok tail => .ok (t :: tail)
termination_by fuel tokens => (fuel, tokens.length)

/-- `[i for i, x in enumerate(l) if op == x]`, enumerating from `start`. -/
def occurrencesOfAux (op : String) : Nat → List TokItem → List Nat
  | _, [] => []
  | i, t :: rest =>
    if t.isStrEq op then i :: occurrencesOfAux op (i + 1) rest
    else occurrencesOfAux op (i + 1) rest

/-- The occurrence indices of the operator `op` in the working list. -/
def occurrencesOf (op : String) (l : List TokItem) : List Nat :=
  occurrencesOfAux op 0 l

mutual

/-- `_tokens_list_to_query`: strip the parentheses into sub-lists, fold all
`&` occurrences (in reversed occurrence order) into `AndQuery` nodes, then
all `|` occurrences into `OrQuery` nodes, and require exactly one element
to remain. -/
def tokensListToQuery : Nat → List TokItem → Except String TextQuery
  | 0, _ => .error "out of fuel"
  | fuel + 1, tokens =>
    match replaceParens fuel tokens with
    | .error e => .error e
    | .ok no_parens_list =>
      match resolveOps fuel TextQuery.andQ
          (occurrencesOf "&" no_parens_list).reverse no_parens_list with
      | .error e => .error e
      | .ok l1 =>
        match resolveOps fuel TextQuery.orQ (occurrencesOf "|" l1).reverse l1 with
        | .error e => .error e
        | .ok l2 =>
          match l2 with
          | [x] => argumentToQuery fuel x
          | _ => .error "Bug: Something's on fire. Tell Andrew!!!"

/-- One backwards pass of `_tokens_list_to_query`'s operator-folding loop:
for each occurrence index (largest first), convert the immediate left and
right neighbours to queries and splice the three-element span
(`del no_parens_list[i-1:i+2]; insert(i-1, node)`).  The bounds check and
error message (`no argument to &.`, also used verbatim by the `|` pass) and
the out-of-range indexing error follow the source's evaluation order. -/
def resolveOps : Nat → (TextQuery → TextQuery → TextQuery) → List Nat → List TokItem →
    Except String (List TokItem)
  | _, _, [], l => .ok l
  | 0, _, _ :: _, _ => .error "out of fuel"
  | fuel + 1, op, i :: rest, l =>
    if i = 0 ∨ i = l.length then .error "Syntax: no argument to &."
    else
      match l.get? (i - 1) with
      | none => .error "IndexError: list index out of range"
      | some lhs =>
        match argumentToQuery fuel lhs with
        | .error e => .error e
        | .ok lhs_q =>
          match l.get? (i + 1) with
          | none => .error "IndexError: list index out of range"
          | some rhs =>
            match argumentToQuery fuel rhs with
            | .error e => .error e
            | .ok rhs_q =>
              resolveOps fuel op rest
                (l.take (i - 1) ++ [TokItem.query (op lhs_q rhs_q)] ++ l.drop (i + 2))

/-- `_argument_to_query`: an already-formed query is returned as is, a
string that is a command is parsed by the command grammar, a sub-list is
parsed recursively, anything else (an operator string) is a syntax
error. -/
def argumentToQuery : Nat → TokItem → Except String TextQuery
  | _, .query q => .ok q
  | _, .str s =>
    if isCmd s then cmdToQuery s
    else .error ("Syntax: unexpected argument to op, " ++ s)
  | fuel, .sub l =>
    match fuel with
    | 0 => .error "out of fuel"
    | fuel + 1 => tokensListToQuery fuel l

end

/-- `to_query`: tokenize the command string and convert the token list. -/
def to_query (fuel : Nat) (command : String) : Except String TextQuery :=
  match tokenizeCommandStr command with
  | .error e => .error e
  | .ok tokens => tokensListToQuery fuel (tokens.map TokItem.str)

/-! ## Claim C1 -/

/-- **C1**.  For leaf command tokens `a`, `b`, `c` (tokens that are not
operators, are not parenthesis markers, and convert to queries `qa`, `qb`,
`qc`), the token list of `a and b or c` parses to `Or(And(a,b), c)` and the
token list of `a or b and c` parses to `Or(a, And(b,c))`: every `&` is
resolved into an `AndQuery` before any `|` is resolved, so AND binds
tighter than OR. -/
theorem and_binds_tighter_than_or (a b c : String) (qa qb qc : TextQuery) (fuel : Nat)
    (ha1 : isCmd a = true) (ha2 : pyStartsWith a "(" = false)
    (ha3 : cmdToQuery a = .ok qa)
    (hb1 : isCmd b = true) (hb2 : pyStartsWith b "(" = false)
    (hb3 : cmdToQuery b = .ok qb)
    (hc1 : isCmd c = true) (hc2 : pyStartsWith c "(" = false)
    (hc3 : cmdToQuery c = .ok qc) :
    tokensListToQuery (fuel + 1 + 1)
        [TokItem.str a, TokItem.str "&", TokItem.str b, TokItem.str "|", TokItem.str c]
      = .ok (TextQuery.orQ (TextQuery.andQ qa qb) qc)
    ∧ tokensListToQuery (fuel + 1 + 1)
        [TokItem.str a, TokItem.str "|", TokItem.str b, TokItem.str "&", TokItem.str c]
      = .ok (TextQuery.orQ qa (TextQuery.andQ qb qc)) := by
  have haA : ¬(a = "&") := by
    intro h; rw [h] at ha1; exact absurd ha1 (by decide)
  have haP : ¬(a = "|") := by
    intro h; rw [h] at ha1; exact absurd ha1 (by decide)
  have hbA : ¬(b = "&") := by
    intro h; rw [h] at hb1; exact absurd hb1 (by decide)
  have hbP : ¬(b = "|") := by
    intro h; rw [h] at hb1; exact absurd hb1 (by decide)
  have hcA : ¬(c = "&") := by
    intro h; rw [h] at hc1; exact absurd hc1 (by decide)
  have hcP : ¬(c = "|") := by
    intro h; rw [h] at hc1; exact absurd hc1 (by decide)
  have hlit1 : pyStartsWith "&" "(" = false := by decide
  have hlit2 : pyStartsWith "|" "(" = false := by decide
  have hlit3 : (("&" : String) == "&") = true := by decide
  have hlit4 : (("|" : String) == "&") = false := by decide
  have hlit5 : (("&" : String) == "|") = false := by decide
  have hlit6 : (("|" : String) == "|") = true := by decide
  constructor <;>
    simp [tokensListToQuery, replaceParens, resolveOps, argumentToQuery, occurrencesOf,
      occurrencesOfAux, TokItem.isStrEq, ha1, ha2, ha3, hb1, hb2, hb3, hc1, hc2, hc3,
      haA, haP, hbA, hbP, hcA, hcP, hlit1, hlit2, hlit3, hlit4, hlit5, hlit6]

/-- Witness for C1 at the concrete leaf commands `lexeme a`, `lexeme b`,
`lexeme c` with fuel 2. -/
theorem and_binds_tighter_than_or_witness :
    tokensListToQuery 2
        [TokItem.str "lexeme a", TokItem.str "&", TokItem.str "lexeme b",
         TokItem.str "|", TokItem.str "lexeme c"]
      = .ok (TextQuery.orQ
          (TextQuery.andQ (TextQuery.lexemeQ { lexeme := "a" })
            (TextQuery.lexemeQ { lexeme := "b" }))
          (TextQuery.lexemeQ { lexeme := "c" }))
    ∧ tokensListToQuery 2
        [TokItem.str "lexeme a", TokItem.str "|", TokItem.str "lexeme b",
         TokItem.str "&", TokItem.str "lexeme c"]
      = .ok (TextQuery.orQ (TextQuery.lexemeQ { lexeme := "a" })
          (TextQuery.andQ (TextQuery.lexemeQ { lexeme := "b" })
            (TextQuery.lexemeQ { lexeme := "c" }))) :=
  and_binds_tighter_than_or "lexeme a" "lexeme b" "lexeme c" _ _ _ 0
    (by decide) (by decide) rfl
    (by decide) (by decide) rfl
    (by decide) (by decide) rfl

/-! ## Claim C7 -/

/-- **C7** (counterexample).  Parsing the token list of
`lexeme a & lexeme b & lexeme c` yields the right-nested tree
`AndQuery(a, AndQuery(b, c))` — the occurrence loop runs backwards and
splices the rightmost `&` first — which differs from the left-nested
`AndQuery(AndQuery(a, b), c)` the claim asserts. -/
theorem and_chain_counterexample :
    tokensListToQuery 5
        [TokItem.str "lexeme a", TokItem.str "&", TokItem.str "lexeme b",
         TokItem.str "&", TokItem.str "lexeme c"]
      = .ok (TextQuery.andQ (TextQuery.lexemeQ { lexeme := "a" })
          (TextQuery.andQ (TextQuery.lexemeQ { lexeme := "b" })
            (TextQuery.lexemeQ { lexeme := "c" })))
    ∧ TextQuery.andQ (TextQuery.lexemeQ { lexeme := "a" })
          (TextQuery.andQ (TextQuery.lexemeQ { lexeme := "b" })
            (TextQuery.lexemeQ { lexeme := "c" }))
        ≠ TextQuery.andQ
            (TextQuery.andQ (TextQuery.lexemeQ { lexeme := "a" })
              (TextQuery.lexemeQ { lexeme := "b" }))
            (TextQuery.lexemeQ { lexeme := "c" }) := by
  constructor
  · have hlit1 : pyStartsWith "lexeme a" "(" = false := by decide
    have hlit2 : pyStartsWith "lexeme b" "(" = false := by decide
    have hlit3 : pyStartsWith "lexeme c" "(" = false := by decide
    have hlit4 : pyStartsWith "&" "(" = false := by decide
    have hlit5 : cmdToQuery "lexeme a" = .ok (TextQuery.lexemeQ { lexeme := "a" }) := rfl
    have hlit6 : cmdToQuery "lexeme b" = .ok (TextQuery.lexemeQ { lexeme := "b" }) := rfl
    have hlit7 : cmdToQuery "lexeme c" = .ok (TextQuery.lexemeQ { lexeme := "c" }) := rfl
    simp [tokensListToQuery, replaceParens, resolveOps, argumentToQuery, occurrencesOf,
      occurrencesOfAux, TokItem.isStrEq, isCmd,
      hlit1, hlit2, hlit3, hlit4, hlit5, hlit6, hlit7]
  · decide

/-- **C7** (amended).  Successive identical operators associate to the
*right*: for leaf command tokens `a`, `b`, `c`, the token list of
`a & b & c` parses to `AndQuery(a, AndQuery(b, c))` and the token list of
`a | b | c` parses to `OrQuery(a, OrQuery(b, c))` (the backwards occurrence
loop keeps the leftmost operand at the top of the tree).  For `AndQuery`
the two shapes are extensionally equivalent under `search`, since both
evaluate `c` against `b`'s result against `a`'s result. -/
theorem op_chain_right_associates (a b c : String) (qa qb qc : TextQuery) (fuel : Nat)
    (ha1 : isCmd a = true) (ha2 : pyStartsWith a "(" = false)
    (ha3 : cmdToQuery a = .ok qa)
    (hb1 : isCmd b = true) (hb2 : pyStartsWith b "(" = false)
    (hb3 : cmdToQuery b = .ok qb)
    (hc1 : isCmd c = true) (hc2 : pyStartsWith c "(" = false)
    (hc3 : cmdToQuery c = .ok qc) :
    tokensListToQuery (fuel + 1 + 1 + 1)
        [TokItem.str a, TokItem.str "&", TokItem.str b, TokItem.str "&", TokItem.str c]
      = .ok (TextQuery.andQ qa (TextQuery.andQ qb qc))
    ∧ tokensListToQuery (fuel + 1 + 1 + 1)
        [TokItem.str a, TokItem.str "|", TokItem.str b, TokItem.str "|", TokItem.str c]
      = .ok (TextQuery.orQ qa (TextQuery.orQ qb qc))
    ∧ (∀ corpus : List Word,
        (TextQuery.andQ qa (TextQuery.andQ qb qc)).search corpus
          = (TextQuery.andQ (TextQuery.andQ qa qb) qc).search corpus) := by
  have haA : ¬(a = "&") := by
    intro h; rw [h] at ha1; exact absurd ha1 (by decide)
  have haP : ¬(a = "|") := by
    intro h; rw [h] at ha1; exact absurd ha1 (by decide)
  have hbA : ¬(b = "&") := by
    intro h; rw [h] at hb1; exact absurd hb1 (by decide)
  have hbP : ¬(b = "|") := by
    intro h; rw [h] at hb1; exact absurd hb1 (by decide)
  have hcA : ¬(c = "&") := by
    intro h; rw [h] at hc1; exact absurd hc1 (by decide)
  have hcP : ¬(c = "|") := by
    intro h; rw [h] at hc1; exact absurd hc1 (by decide)
  have hlit1 : pyStartsWith "&" "(" = false := by decide
  have hlit2 : pyStartsWith "|" "(" = false := by decide
  have hlit3 : (("&" : String) == "&") = true := by decide
  have hlit4 : (("|" : String) == "&") = false := by decide
  have hlit5 : (("&" : String) == "|") = false := by decide
  have hlit6 : (("|" : String) == "|") = true := by decide
  refine ⟨?_, ?_, fun corpus => rfl⟩ <;>
    simp [tokensListToQuery, replaceParens, resolveOps, argumentToQuery, occurrencesOf,
      occurrencesOfAux, TokItem.isStrEq, ha1, ha2, ha3, hb1, hb2, hb3, hc1, hc2, hc3,
      haA, haP, hbA, hbP, hcA, hcP, hlit1, hlit2, hlit3, hlit4, hlit5, hlit6]

/-- Witness for the amended C7 at concrete leaf commands with fuel 3. -/
theorem op_chain_right_associates_witness :
    tokensListToQuery 3
        [TokItem.str "lexeme a", TokItem.str "&", TokItem.str "lexeme b",
         TokItem.str "&", TokItem.str "lexeme c"]
      = .ok (TextQuery.andQ (TextQuery.lexemeQ { lexeme := "a" })
          (TextQuery.andQ (TextQuery.lexemeQ { lexeme := "b" })
            (TextQuery.lexemeQ { lexeme := "c" })))
    ∧ tokensListToQuery 3
        [TokItem.str "lexeme a", TokItem.str "|", TokItem.str "lexeme b",
         TokItem.str "|", TokItem.str "lexeme c"]
      = .ok (TextQuery.orQ (TextQuery.lexemeQ { lexeme := "a" })
          (TextQuery.orQ (TextQuery.lexemeQ { lexeme := "b" })
            (TextQuery.lexemeQ { lexeme := "c" }))) := by
  have h := op_chain_right_associates "lexeme a" "lexeme b" "lexeme c"
    (TextQuery.lexemeQ { lexeme := "a" }) (TextQuery.lexemeQ { lexeme := "b" })
    (TextQuery.lexemeQ { lexeme := "c" }) 0
    (by decide) (by decide) rfl
    (by decide) (by decide) rfl
    (by decide) (by decide) rfl
  exact ⟨h.1, h.2.1⟩

/-! ## generation/generate_lxx.py — interpret_morphology

The decoder's rule patterns are `re.match` regular expressions built from
literal characters, character classes and (in three rules of the source)
an unescaped `.` matching any character.  `re.match` anchors at the start
only, so a pattern matches when its fixed-position tests hold on a prefix
of the code string. -/

/-- One position of a decoder pattern: a literal character, a character
class, or (for the source's unescaped `.`) any character. -/
inductive Pat where
  | lit (c : Char)
  | cls (s : String)
  | any

/-- Anchored prefix matching of a fixed-position pattern, i.e. `re.match`
for the decoder's regular expressions. -/
def patMatch : List Pat → List Char → Bool
  | [], _ => true
  | _ :: _, [] => false
  | p :: ps, c :: cs =>
    (match p with
     | .lit a => a == c
     | .cls s => s.data.contains c
     | .any => true) && patMatch ps cs

/-- `re.match(pattern, code)` for a decoder pattern. -/
def reMatchPat (ps : List Pat) (s : String) : Bool := patMatch ps s.data

/-- `code[i]`; every use below is guarded by a pattern match that makes the
index in range, so the default is never returned. -/
def charAt (s : String) (i : Nat) : Char := s.data.getD i ' '

namespace generate_lxx

/-- `case_map` (the LXX decoder's, which includes vocative). -/
def case_map (c : Char) : String :=
  if c = 'N' then "nominative"
  else if c = 'G' then "genitive"
  else if c = 'D' then "dative"
  else if c = 'A' then "accusative"
  else if c = 'V' then "vocative"
  else "KeyError: case"

/-- `number_map`. -/
def number_map (c : Char) : String :=
  if c = 'S' then "singular"
  else if c = 'P' then "plural"
  else if c = 'D' then "dual"
  else "KeyError: number"

/-- `gender_map`. -/
def gender_map (c : Char) : String :=
  if c = 'M' then "masculine"
  else if c = 'F' then "feminine"
  else if c = 'N' then "neuter"
  else "KeyError: gender"

/-- `tense_map`. -/
def tense_map (c : Char) : String :=
  if c = 'P' then "present"
  else if c = 'I' then "imperfect"
  else if c = 'A' then "aorist"
  else if c = 'X' then "perfect"
  else if c = 'F' then "future"
  else if c = 'Y' then "pluperfect"
  else "KeyError: tense"

/-- `voice_map`. -/
def voice_map (c : Char) : String :=
  if c = 'A' then "active"
  else if c = 'M' then "middle"
  else if c = 'P' then "passive"
  else "KeyError: voice"

/-- `mood_map`. -/
def mood_map (c : Char) : String :=
  if c = 'I' then "indicative"
  else if c = 'D' then "imperative"
  else if c = 'P' then "participle"
  else if c = 'N' then "infinitive"
  else if c = 'S' then "subjunctive"
  else if c = 'O' then "optative"
  else "KeyError: mood"

/-- `person_map`. -/
def person_map (c : Char) : String :=
  if c = '1' then "first"
  else if c = '2' then "second"
  else if c = '3' then "third"
  else "KeyError: person"

/-- The `word_index` keys of the known-bad-code patch table. -/
def patched_indices : List Nat :=
  [239870, 332804, 335067, 422765, 422848, 433328, 473507, 483471]

/-- The sequence of
`if <index> == word['word_index']: morph_code = <replacement>` statements
that "correct what appear to be typos in the dataset" before rule
matching. -/
def apply_patches (word_index : Nat) (morph_code : String) : String :=
  let morph_code := if word_index = 239870 then "V.API3S" else morph_code
  let morph_code := if word_index = 332804 then "A" else morph_code
  let morph_code := if word_index = 335067 then "A.N" else morph_code
  let morph_code := if word_index = 422765 then "V.APS2S" else morph_code
  let morph_code := if word_index = 422848 then "V.PMI3P" else morph_code
  let morph_code := if word_index = 433328 then "N.DSF" else morph_code
  let morph_code := if word_index = 473507 then "A.APN" else morph_code
  let morph_code := if word_index = 483471 then "A.NSM" else morph_code
  morph_code

/-- The `if/elif` rule chain of `interpret_morphology`, applied to the
(already patched) code string; the trailing `else` models the
`ValueError('Unknown morphology code: ...')` (whose full source text also
interpolates the record's surface word and index). -/
def interpret_code (morph_code : String) : Except String MorphAttrs :=
  if morph_code = "P" then .ok [("part_of_speech", .s "preposition")]
  else if morph_code = "P+X" then .ok [("part_of_speech", .s "conjunction")]
  else if morph_code = "C" then .ok [("part_of_speech", .s "conjunction")]
  else if morph_code = "X" then .ok [("part_of_speech", .s "particle")]
  else if morph_code = "C+X" then .ok [("part_of_speech", .s "particle")]
  else if morph_code = "D" then .ok [("part_of_speech", .s "adverb")]
  else if morph_code = "D.P" then .ok [("part_of_speech", .s "adverb")]
  else if morph_code = "C+D" then .ok [("part_of_speech", .s "adverb")]
  else if morph_code = "M" then .ok [("part_of_speech", .s "adjective")]
  else if morph_code = "I" then .ok [("part_of_speech", .s "interjection")]
  else if morph_code = "N" then .ok [("part_of_speech", .s "noun")]
  else if morph_code = "A" then .ok [("part_of_speech", .s "adjective")]
  else if morph_code = "A.B" then .ok [("part_of_speech", .s "adjective")]
  else if morph_code = "RA+A" then .ok [("part_of_speech", .s "adjective")]
  else if morph_code = "RI" then .ok [("part_of_speech", .s "pronoun")]
  else if reMatchPat [.lit 'N', .lit '.', .cls "NGDAV", .cls "SPD", .cls "MFN"] morph_code then
    .ok [("part_of_speech", .s "noun"),
         ("case", .s (case_map (charAt morph_code 2))),
         ("number", .s (number_map (charAt morph_code 3))),
         ("gender", .s (gender_map (charAt morph_code 4)))]
  else if reMatchPat [.lit 'R', .lit 'D', .lit '+', .lit 'N', .lit '.',
      .cls "NGDAV", .cls "SPD", .cls "MFN"] morph_code then
    .ok [("part_of_speech", .s "noun"),
         ("case", .s (case_map (charAt morph_code 5))),
         ("number", .s (number_map (charAt morph_code 6))),
         ("gender", .s (gender_map (charAt morph_code 7)))]
  else if reMatchPat [.lit 'M', .lit '3', .lit 'M', .lit '.',
      .cls "NGDAV", .cls "SPD", .cls "MFN"] morph_code then
    .ok [("part_of_speech", .s "noun"),
         ("case", .s (case_map (charAt morph_code 4))),
         ("number", .s (number_map (charAt morph_code 5))),
         ("gender", .s (gender_map (charAt morph_code 6)))]
  else if reMatchPat [.lit 'N', .lit '.', .cls "NGDAV", .cls "SPD"] morph_code then
    .ok [("part_of_speech", .s "noun"),
         ("case", .s (case_map (charAt morph_code 2))),
         ("number", .s (number_map (charAt morph_code 3)))]
  else if reMatchPat [.lit 'N', .lit '.', .cls "SPD"] morph_code then
    .ok [("part_of_speech", .s "noun"),
         ("number", .s (number_map (charAt morph_code 2)))]
  else if reMatchPat [.lit 'N', .lit '.', .cls "NGDAV", .lit ' ', .cls "MFN"] morph_code then
    .ok [("part_of_speech", .s "noun"),
         ("gender", .s (gender_map (charAt morph_code 4)))]
  else if reMatchPat [.lit 'N', .lit '.', .cls "NGDAV"] morph_code then
    .ok [("part_of_speech", .s "noun"),
         ("case", .s (case_map (charAt morph_code 2)))]
  else if reMatchPat [.lit 'A', .lit '.', .cls "NGDAV", .cls "SPD", .cls "MFN"] morph_code then
    .ok [("part_of_speech", .s "adjective"),
         ("case", .s (case_map (charAt morph_code 2))),
         ("number", .s (number_map (charAt morph_code 3))),
         ("gender", .s (gender_map (charAt morph_code 4)))]
  else if reMatchPat [.lit 'P', .lit '+', .lit 'A', .lit '.',
      .cls "NGDAV", .cls "SPD", .cls "MFN"] morph_code then
    .ok [("part_of_speech", .s "adjective"),
         ("case", .s (case_map (charAt morph_code 4))),
         ("number", .s (number_map (charAt morph_code 5))),
         ("gender", .s (gender_map (charAt morph_code 6)))]
  else if reMatchPat [.lit 'R', .lit 'A', .lit '+', .lit 'A', .lit '.',
      .cls "NGDAV", .cls "SPD", .cls "MFN"] morph_code then
    .ok [("part_of_speech", .s "adjective"),
         ("case", .s (case_map (charAt morph_code 5))),
         ("number", .s (number_map (charAt morph_code 6))),
         ("gender", .s (gender_map (charAt morph_code 7)))]
  else if reMatchPat [.lit 'A', .lit '.', .cls "NGDAV"] morph_code then
    .ok [("part_of_speech", .s "adjective"),
         ("case", .s (case_map (charAt morph_code 2)))]
  else if reMatchPat [.lit 'A', .lit '.', .cls "SPD"] morph_code then
    .ok [("part_of_speech", .s "adjective"),
         ("number", .s (number_map (charAt morph_code 2)))]
  else if reMatchPat [.lit 'A', .cls "123456789"] morph_code then
    .ok [("part_of_speech", .s "adjective")]
  else if reMatchPat [.lit 'M', .lit '.', .cls "NGDAV", .cls "SPD", .cls "MFN"] morph_code then
    .ok [("part_of_speech", .s "adjective"),
         ("case", .s (case_map (charAt morph_code 2))),
         ("number", .s (number_map (charAt morph_code 3))),
         ("gender", .s (gender_map (charAt morph_code 4)))]
  else if reMatchPat [.lit 'M', .lit '.', .cls "NGDAV", .cls "SPD", .cls "MFN"] morph_code then
    .ok [("part_of_speech", .s "adjective"),
         ("case", .s (case_map (charAt morph_code 2))),
         ("number", .s (number_map (charAt morph_code 3))),
         ("gender", .s (gender_map (charAt morph_code 4)))]
  else if reMatchPat [.lit 'M', .lit '.', .cls "NGDAV", .cls "SPD"] morph_code then
    .ok [("part_of_speech", .s "adjective"),
         ("case", .s (case_map (charAt morph_code 2))),
         ("number", .s (number_map (charAt morph_code 3)))]
  else if reMatchPat [.lit 'V', .lit '.', .cls "PFIAXY", .cls "AMP", .cls "IDSO",
      .cls "123", .cls "SPD"] morph_code then
    .ok [("part_of_speech", .s "verb"),
         ("tense", .s (tense_map (charAt morph_code 2))),
         ("voice", .s (voice_map (charAt morph_code 3))),
         ("mood", .s (mood_map (charAt morph_code 4))),
         ("person", .s (person_map (charAt morph_code 5))),
         ("number", .s (number_map (charAt morph_code 6)))]
  else if reMatchPat [.lit 'V', .lit '.', .cls "PFIAXY", .cls "AMP", .cls "IDSO"] morph_code then
    .ok [("part_of_speech", .s "verb"),
         ("tense", .s (tense_map (charAt morph_code 2))),
         ("voice", .s (voice_map (charAt morph_code 3))),
         ("mood", .s (mood_map (charAt morph_code 4)))]
  else if reMatchPat [.lit 'V', .any, .cls "PFIAXY", .cls "AMP", .lit 'P',
      .cls "NGDAV", .cls "SPD", .cls "MFN"] morph_code then
    .ok [("part_of_speech", .s "verb"),
         ("tense", .s (tense_map (charAt morph_code 2))),
         ("voice", .s (voice_map (charAt morph_code 3))),
         ("mood", .s (mood_map (charAt morph_code 4))),
         ("case", .s (case_map (charAt morph_code 5))),
         ("number", .s (number_map (charAt morph_code 6))),
         ("gender", .s (gender_map (charAt morph_code 7)))]
  else if reMatchPat [.lit 'V', .any, .cls "PFIAXY", .cls "AMP", .lit 'P'] morph_code then
    .ok [("part_of_speech", .s "verb"),
         ("tense", .s (tense_map (charAt morph_code 2))),
         ("voice", .s (voice_map (charAt morph_code 3))),
         ("mood", .s (mood_map (charAt morph_code 4)))]
  else if reMatchPat [.lit 'V', .lit '.', .cls "PFIAXY", .cls "AMP", .lit 'N'] morph_code then
    .ok [("part_of_speech", .s "verb"),
         ("tense", .s (tense_map (charAt morph_code 2))),
         ("voice", .s (voice_map (charAt morph_code 3))),
         ("mood", .s (mood_map (charAt morph_code 4)))]
  else if reMatchPat [.lit 'R', .lit 'A', .lit '.',
      .cls "NGDAV", .cls "SPD", .cls "MFN"] morph_code then
    .ok [("part_of_speech", .s "article"),
         ("case", .s (case_map (charAt morph_code 3))),
         ("number", .s (number_map (charAt morph_code 4))),
         ("gender", .s (gender_map (charAt morph_code 5)))]
  else if reMatchPat [.lit 'R', .lit 'R', .lit '.',
      .cls "NGDAV", .cls "SPD", .cls "MFN"] morph_code then
    .ok [("part_of_speech", .s "pronoun"),
         ("extras", .l ["relative"]),
         ("case", .s (case_map (charAt morph_code 3))),
         ("number", .s (number_map (charAt morph_code 4))),
         ("gender", .s (gender_map (charAt morph_code 5)))]
  else if reMatchPat [.lit 'R', .lit 'A', .lit '.', .cls "NGDAV", .cls "SPD"] morph_code then
    .ok [("part_of_speech", .s "pronoun"),
         ("extras", .l ["relative"]),
         ("case", .s (case_map (charAt morph_code 3))),
         ("number", .s (number_map (charAt morph_code 4)))]
  else if reMatchPat [.lit 'R', .lit 'D', .lit '.',
      .cls "NGDAV", .cls "SPD", .cls "MFN"] morph_code then
    .ok [("part_of_speech", .s "pronoun"),
         ("case", .s (case_map (charAt morph_code 3))),
         ("number", .s (number_map (charAt morph_code 4))),
         ("gender", .s (gender_map (charAt morph_code 5)))]
  else if reMatchPat [.lit 'C', .lit '+', .lit 'R', .lit 'D', .lit '.',
      .cls "NGDAV", .cls "SPD", .cls "MFN"] morph_code then
    .ok [("part_of_speech", .s "pronoun"),
         ("case", .s (case_map (charAt morph_code 5))),
         ("number", .s (number_map (charAt morph_code 6))),
         ("gender", .s (gender_map (charAt morph_code 7)))]
  else if reMatchPat [.lit 'R', .lit 'D', .lit '.', .cls "NGDAV", .cls "SPD"] morph_code then
    .ok [("part_of_speech", .s "pronoun"),
         ("case", .s (case_map (charAt morph_code 3))),
         ("number", .s (number_map (charAt morph_code 4)))]
  else if reMatchPat [.lit 'R', .lit 'P', .any, .cls "NGDAV", .cls "SPD"] morph_code then
    .ok [("part_of_speech", .s "pronoun"),
         ("case", .s (case_map (charAt morph_code 3))),
         ("number", .s (number_map (charAt morph_code 4)))]
  else if reMatchPat [.lit 'R', .lit 'I', .lit '.',
      .cls "NGDAV", .cls "SPD", .cls "MFN"] morph_code then
    .ok [("part_of_speech", .s "pronoun"),
         ("case", .s (case_map (charAt morph_code 3))),
         ("number", .s (number_map (charAt morph_code 4))),
         ("gender", .s (gender_map (charAt morph_code 5)))]
  else if reMatchPat [.lit 'R', .lit 'I', .lit '.', .cls "NGDAV"] morph_code then
    .ok [("part_of_speech", .s "pronoun"),
         ("case", .s (case_map (charAt morph_code 3)))]
  else if reMatchPat [.lit 'R', .lit 'X', .lit '.',
      .cls "NGDAV", .cls "SPD", .cls "MFN"] morph_code then
    .ok [("part_of_speech", .s "pronoun"),
         ("case", .s (case_map (charAt morph_code 3))),
         ("number", .s (number_map (charAt morph_code 4))),
         ("gender", .s (gender_map (charAt morph_code 5)))]
  else if reMatchPat [.lit 'C', .lit '+', .lit 'R', .lit 'P', .lit '.',
      .cls "NGDAV", .cls "SPD"] morph_code then
    .ok [("part_of_speech", .s "pronoun"),
         ("case", .s (case_map (charAt morph_code 5))),
         ("number", .s (number_map (charAt morph_code 6)))]
  else if reMatchPat [.lit 'R', .lit 'P', .lit '+', .lit 'X', .lit '.',
      .cls "NGDAV", .cls "SPD"] morph_code then
    .ok [("part_of_speech", .s "pronoun"),
         ("case", .s (case_map (charAt morph_code 5))),
         ("number", .s (number_map (charAt morph_code 6)))]
  else .error ("Unknown morphology code: " ++ morph_code)

/-- `interpret_morphology` for one record: patch the known-bad codes by
`word_index`, then run the rule chain. -/
def interpret_morphology (word_index : Nat) (morph_code : String) :
    Except String MorphAttrs :=
  interpret_code (apply_patches word_index morph_code)

end generate_lxx

/-! ## Claim C10 -/

/-- **C10** (counterexample).  Two records carrying the same raw morph code
string `"C"` decode to different attribute maps when one of them has the
patched `word_index` 239870 (whose code is rewritten to `V.API3S` before
rule matching): decoding is not a function of the code alone on patched
records. -/
theorem interpret_morphology_not_code_alone :
    generate_lxx.interpret_morphology 239870 "C"
      = .ok [("part_of_speech", AttrVal.s "verb"), ("tense", AttrVal.s "aorist"),
             ("voice", AttrVal.s "passive"), ("mood", AttrVal.s "indicative"),
             ("person", AttrVal.s "third"), ("number", AttrVal.s "singular")]
    ∧ generate_lxx.interpret_morphology 0 "C"
      = .ok [("part_of_speech", AttrVal.s "conjunction")]
    ∧ ([("part_of_speech", AttrVal.s "verb"), ("tense", AttrVal.s "aorist"),
        ("voice", AttrVal.s "passive"), ("mood", AttrVal.s "indicative"),
        ("person", AttrVal.s "third"), ("number", AttrVal.s "singular")] : MorphAttrs)
      ≠ [("part_of_speech", AttrVal.s "conjunction")] := by
  refine ⟨rfl, rfl, by decide⟩

/-- **C10** (amended).  Decoding is a pure function of the pair
`(word_index, raw code)` — identical maps on every call — and for records
whose `word_index` is *not* in the known-bad-code patch table it is a
function of the raw code alone: any two unpatched records with the same raw
code decode identically.  (Patched records have their code rewritten by
`word_index` first, so their result can differ from that of an unpatched
record with the same raw code.) -/
theorem interpret_morphology_code_determines_unpatched (i j : Nat) (code : String)
    (hi : i ∉ generate_lxx.patched_indices) (hj : j ∉ generate_lxx.patched_indices) :
    generate_lxx.interpret_morphology i code = generate_lxx.interpret_morphology j code := by
  have hp : ∀ k, k ∉ generate_lxx.patched_indices →
      generate_lxx.apply_patches k code = code := by
    intro k hk
    simp only [generate_lxx.patched_indices, List.mem_cons, List.not_mem_nil, or_false,
      not_or] at hk
    obtain ⟨h1, h2, h3, h4, h5, h6, h7, h8⟩ := hk
    simp [generate_lxx.apply_patches, h1, h2, h3, h4, h5, h6, h7, h8]
  unfold generate_lxx.interpret_morphology
  rw [hp i hi, hp j hj]

/-- Witness for the amended C10 at two unpatched indices and the code
`"C"`. -/
theorem interpret_morphology_code_determines_unpatched_witness :
    generate_lxx.interpret_morphology 0 "C" = generate_lxx.interpret_morphology 1 "C" :=
  interpret_morphology_code_determines_unpatched 0 1 "C" (by decide) (by decide)
